import Mathlib

/-!
Verification development for the `fgp-postgres` daemon (Rust sources:
`src/main.rs`, `src/client.rs`, `src/service.rs`).

The Rust code is shallowly embedded: effectful inputs (environment
variables, the connections file, the URL parser of the external `url`
crate, the database driver, the filesystem and process table) are passed
in explicitly as function arguments, and each embedded function mirrors
the control flow of its Rust counterpart statement by statement.
Panicking operations (`unwrap`, `Row::get`) are modelled as error
results, so that "hard failure" is observable in the embedding.
-/

namespace FgpPostgres

/-! ## Connection configuration (src/client.rs, `ConnectionConfig`) -/

/-- `ConnectionConfig` from src/client.rs: the normalized connection
descriptor.  `port` is a Rust `u16`; it is carried as `Nat` (values
produced by the embedded constructors stay below 65536). -/
structure ConnectionConfig where
  host : String
  port : Nat
  user : String
  password : Option String
  database : String
  ssl : Bool
  deriving DecidableEq

/-- Environment: `std::env::var` is modelled as a partial map from
variable names to values (`none` = unset). -/
def Env : Type := String → Option String

/-- Model of the parse result of the external `url` crate
(`url::Url::parse`): the accessor values used by `from_url`. -/
structure ParsedUrl where
  host : Option String
  port : Option Nat
  username : String
  password : Option String
  path : String
  queryPairs : List (String × String)
  deriving DecidableEq

/-- `str::trim_start_matches('/')`: drop every leading `/`. -/
def trimStartSlashes (s : String) : String :=
  String.mk (s.data.dropWhile (fun c => c = '/'))

/-- `ConnectionConfig::from_url` (src/client.rs:23-34), applied to the
already-parsed URL.  Field by field: host defaults to `localhost`, port
to `5432`; user/password/database are taken as-is; `ssl` is true iff
some `sslmode` query parameter has a value other than `disable`. -/
def from_url (p : ParsedUrl) : ConnectionConfig where
  host := p.host.getD "localhost"
  port := p.port.getD 5432
  user := p.username
  password := p.password
  database := trimStartSlashes p.path
  ssl := p.queryPairs.any (fun kv => kv.1 == "sslmode" && kv.2 != "disable")

/-- `str::trim()`: strip whitespace from both ends (over the character
list, so that concrete instances reduce in the kernel). -/
def trimChars (s : String) : String :=
  String.mk (((s.data.dropWhile Char.isWhitespace).reverse.dropWhile
    Char.isWhitespace).reverse)

/-- Decimal digit run to a number: `none` on a non-digit. -/
def digitsToNatAux : Nat → List Char → Option Nat
  | acc, [] => some acc
  | acc, c :: cs =>
    if c.isDigit then digitsToNatAux (acc * 10 + (c.toNat - 48)) cs
    else none

/-- A non-empty all-digit run to a number. -/
def digitsToNat (l : List Char) : Option Nat :=
  match l with
  | [] => none
  | _ => digitsToNatAux 0 l

/-- An optional leading `+` sign. -/
def stripLeadingPlus (l : List Char) : List Char :=
  match l with
  | '+' :: rest => rest
  | l => l

/-- `str::parse::<u16>().ok()`: an optional leading `+`, then decimal
digits, value at most 65535. -/
def parseU16 (s : String) : Option Nat :=
  match digitsToNat (stripLeadingPlus s.data) with
  | some n => if n ≤ 65535 then some n else none
  | none => none

/-- `ConnectionConfig::from_env` (src/client.rs:37-51): libpq-style
variables with fixed defaults. -/
def from_env (env : Env) : ConnectionConfig where
  host := (env "PGHOST").getD "localhost"
  port := ((env "PGPORT").bind parseU16).getD 5432
  user := (env "PGUSER").getD "postgres"
  password := env "PGPASSWORD"
  database := (env "PGDATABASE").getD "postgres"
  ssl := ((env "PGSSLMODE").map (fun m => m != "disable")).getD false

/-! ## Connections file and resolution (src/main.rs) -/

/-- `NamedConnection` (src/main.rs:31-40). -/
structure NamedConnection where
  url : Option String
  host : Option String
  port : Option Nat
  user : Option String
  password : Option String
  database : Option String
  ssl : Option Bool
  deriving DecidableEq

/-- `ConnectionsConfig` (src/main.rs:43-48).  The `connections` map is
carried as an association list; `defaultName` is the `default` field. -/
structure ConnectionsConfig where
  connections : List (String × NamedConnection)
  defaultName : Option String
  deriving DecidableEq

/-- Error outcomes of `resolve_connection`: a URL that fails to parse
(tier 1 or a file entry), a connections file that fails to parse, or no
source yielding a descriptor (the final `bail!`). -/
inductive ResolveError where
  | urlParse (url : String)
  | configParse (contents : String)
  | noneConfigured
  deriving DecidableEq

/-- The discrete-field branch of the file tier (src/main.rs:76-83). -/
def namedConnectionConfig (conn : NamedConnection) : ConnectionConfig where
  host := conn.host.getD "localhost"
  port := conn.port.getD 5432
  user := conn.user.getD "postgres"
  password := conn.password
  database := conn.database.getD "postgres"
  ssl := conn.ssl.getD false

/-- `resolve_connection` (src/main.rs:52-92).  External effects are
arguments: `env` the environment, `parseUrl` the `url` crate's parser
(`none` = parse error), `configFile` the result of reading
`connections.json` (`none` = read error), `parseConfig` the serde
parser for it (`none` = parse error). -/
def resolve_connection (env : Env) (parseUrl : String → Option ParsedUrl)
    (configFile : Option String)
    (parseConfig : String → Option ConnectionsConfig)
    (name : Option String) : Except ResolveError ConnectionConfig :=
  -- 1. Try DATABASE_URL env var first
  match env "DATABASE_URL" with
  | some url =>
    match parseUrl url with
    | some p => .ok (from_url p)
    | none => .error (.urlParse url)
  | none =>
  -- 2. Try libpq-style env vars
  if (env "PGHOST").isSome then .ok (from_env env)
  else
  -- 3. Try config file
  match configFile with
  | some contents =>
    match parseConfig contents with
    | none => .error (.configParse contents)
    | some config =>
      match name.orElse (fun _ => config.defaultName) with
      | some n =>
        match config.connections.lookup n with
        | some conn =>
          match conn.url with
          | some u =>
            match parseUrl u with
            | some p => .ok (from_url p)
            | none => .error (.urlParse u)
          | none => .ok (namedConnectionConfig conn)
        | none => .error .noneConfigured
      | none => .error .noneConfigured
  | none => .error .noneConfigured

/-- The descriptor invariant claimed by the spec: port in [1,65535],
user and database non-empty. -/
def descriptorInvariant (c : ConnectionConfig) : Prop :=
  1 ≤ c.port ∧ c.port ≤ 65535 ∧ c.user ≠ "" ∧ c.database ≠ ""

instance (c : ConnectionConfig) : Decidable (descriptorInvariant c) := by
  unfold descriptorInvariant; infer_instance

/-! ## Dynamic values (model of `serde_json::Value`)

Floating-point payloads are carried as opaque bit patterns (`Nat`): the
claims settled here never interpret them. -/

/-- Model of `serde_json::Value`. -/
inductive Json where
  | null
  | bool (b : Bool)
  | int (n : Int)
  | float (bits : Nat)
  | str (s : String)
  | arr (xs : List Json)
  | obj (fields : List (String × Json))

/-! ## Row model and value conversion (src/client.rs, `row_value_to_json`)

A `tokio_postgres::Row` is modelled as its column metadata plus one
cell per column, a cell being `none` for SQL NULL or a typed wire
payload.  `Row::try_get::<Option<T>>` follows the driver's actual
semantics: the requested Rust type's `FromSql::accepts` set is checked
against the column's DECLARED type BEFORE any null handling, so a
mismatch is `Err(WrongType)` even when the value is SQL NULL; only
after that check is a NULL returned as `None` and a present payload
decoded.  In particular chrono's `NaiveDateTime` accepts only
`TIMESTAMP` (not `TIMESTAMPTZ`), and `String` accepts only the textual
types.  `Row::get`, which panics on any such error, is modelled as
propagating the error. -/

/-- Declared column types distinguished by `row_value_to_json`'s match. -/
inductive PgType where
  | bool | int2 | int4 | int8 | float4 | float8
  | json | jsonb | timestamptz | timestamp | date | uuid
  | text
  | other (name : String)
  deriving DecidableEq

/-- A non-NULL wire payload.  Timestamps, dates and UUIDs carry their
canonical textual rendering (the embedding never needs their internal
structure). -/
inductive PgValue where
  | b (v : Bool)
  | i2 (v : Int)
  | i4 (v : Int)
  | i8 (v : Int)
  | f4 (bits : Nat)
  | f8 (bits : Nat)
  | jsonv (v : Json)
  | ts (rendered : String)
  | date (rendered : String)
  | uuid (rendered : String)
  | text (s : String)

/-- A column: name and declared type. -/
structure PgColumn where
  name : String
  ty : PgType
  deriving DecidableEq

/-- A row: column metadata (`Row::columns()`) and cells, `none` = NULL. -/
structure Row where
  cols : List PgColumn
  cells : List (Option PgValue)

/-- A prepared statement's metadata (`Statement::columns()`). -/
structure Statement where
  columns : List PgColumn
  deriving DecidableEq

/-- The argument to the `try_get` models: `none` if the index is out of
range, otherwise the cell. -/
def cellAt (row : Row) (idx : Nat) : Option (Option PgValue) :=
  row.cells.get? idx

/-! `FromSql::accepts` sets of the Rust target types used by
`row_value_to_json`, over this universe of declared types (from the
driver's `postgres-types` impls). -/

/-- `<&[u8] as FromSql>::accepts`: BYTEA only. -/
def bytesAccepts : PgType → Bool
  | .other name => name == "bytea"
  | _ => false

/-- `<String as FromSql>::accepts`: TEXT, VARCHAR, BPCHAR, NAME,
UNKNOWN and the ltree family only. -/
def stringAccepts : PgType → Bool
  | .text => true
  | .other name =>
    name == "varchar" || name == "bpchar" || name == "name" ||
    name == "unknown" || name == "ltree" || name == "lquery" ||
    name == "ltxtquery"
  | _ => false

/-- `<bool as FromSql>::accepts`: BOOL. -/
def boolAccepts : PgType → Bool
  | .bool => true
  | _ => false

/-- `<i16 as FromSql>::accepts`: INT2. -/
def i16Accepts : PgType → Bool
  | .int2 => true
  | _ => false

/-- `<i32 as FromSql>::accepts`: INT4. -/
def i32Accepts : PgType → Bool
  | .int4 => true
  | _ => false

/-- `<i64 as FromSql>::accepts`: INT8. -/
def i64Accepts : PgType → Bool
  | .int8 => true
  | _ => false

/-- `<f32 as FromSql>::accepts`: FLOAT4. -/
def f32Accepts : PgType → Bool
  | .float4 => true
  | _ => false

/-- `<f64 as FromSql>::accepts`: FLOAT8. -/
def f64Accepts : PgType → Bool
  | .float8 => true
  | _ => false

/-- `<serde_json::Value as FromSql>::accepts`: JSON and JSONB. -/
def jsonAccepts : PgType → Bool
  | .json => true
  | .jsonb => true
  | _ => false

/-- `<chrono::NaiveDateTime as FromSql>::accepts`: TIMESTAMP only —
NOT TIMESTAMPTZ (that is `DateTime<Utc>`'s type). -/
def naiveDateTimeAccepts : PgType → Bool
  | .timestamp => true
  | _ => false

/-- `<chrono::NaiveDate as FromSql>::accepts`: DATE. -/
def dateAccepts : PgType → Bool
  | .date => true
  | _ => false

/-- `Row::try_get::<_, Option<T>>(idx)`: a bad index is an error; the
accepts-check against the declared type comes FIRST (`Err(WrongType)`
even on NULL); then NULL decodes to `None` and a payload is decoded by
shape (a payload the target cannot decode is an error). -/
def tryGetAs {β : Type} (accepts : PgType → Bool)
    (decode : PgValue → Option β) (ty : PgType) :
    Option (Option PgValue) → Except Unit (Option β)
  | none => .error ()
  | some cell =>
    if accepts ty then
      match cell with
      | none => .ok none
      | some v =>
        match decode v with
        | some b => .ok (some b)
        | none => .error ()
    else .error ()

/-- `row.try_get::<_, Option<&[u8]>>(idx)` (first NULL probe); no
payload in this universe decodes as raw bytes. -/
def tryGetBytes (ty : PgType) (cell : Option (Option PgValue)) :
    Except Unit (Option Unit) :=
  tryGetAs bytesAccepts (fun _ => none) ty cell

/-- `row.try_get::<_, Option<String>>(idx)` (NULL probe, UUID arm and
text fallback). -/
def tryGetString (ty : PgType) (cell : Option (Option PgValue)) :
    Except Unit (Option String) :=
  tryGetAs stringAccepts
    (fun v => match v with | .text s => some s | _ => none) ty cell

/-- `row.try_get::<_, Option<i32>>(idx)` (third NULL probe). -/
def tryGetI32 (ty : PgType) (cell : Option (Option PgValue)) :
    Except Unit (Option Int) :=
  tryGetAs i32Accepts
    (fun v => match v with | .i4 n => some n | _ => none) ty cell

/-- `Row::get`, which panics where `try_get` errs, modelled as an
error result. -/
def rowGetAs {β : Type} (accepts : PgType → Bool)
    (decode : PgValue → Option β) (ty : PgType)
    (cell : Option (Option PgValue)) : Except String (Option β) :=
  match tryGetAs accepts decode ty cell with
  | .ok v => .ok v
  | .error _ => .error "conversion failed"

/-- `row.get::<_, Option<bool>>(idx)`. -/
def rowGetBool : PgType → Option (Option PgValue) →
    Except String (Option Bool) :=
  rowGetAs boolAccepts (fun v => match v with | .b x => some x | _ => none)

/-- `row.get::<_, Option<i16>>(idx)`. -/
def rowGetI16 : PgType → Option (Option PgValue) →
    Except String (Option Int) :=
  rowGetAs i16Accepts (fun v => match v with | .i2 x => some x | _ => none)

/-- `row.get::<_, Option<i32>>(idx)`. -/
def rowGetI32 : PgType → Option (Option PgValue) →
    Except String (Option Int) :=
  rowGetAs i32Accepts (fun v => match v with | .i4 x => some x | _ => none)

/-- `row.get::<_, Option<i64>>(idx)`. -/
def rowGetI64 : PgType → Option (Option PgValue) →
    Except String (Option Int) :=
  rowGetAs i64Accepts (fun v => match v with | .i8 x => some x | _ => none)

/-- `row.get::<_, Option<f32>>(idx)`. -/
def rowGetF32 : PgType → Option (Option PgValue) →
    Except String (Option Nat) :=
  rowGetAs f32Accepts (fun v => match v with | .f4 x => some x | _ => none)

/-- `row.get::<_, Option<f64>>(idx)`. -/
def rowGetF64 : PgType → Option (Option PgValue) →
    Except String (Option Nat) :=
  rowGetAs f64Accepts (fun v => match v with | .f8 x => some x | _ => none)

/-- `row.get::<_, Option<serde_json::Value>>(idx)`. -/
def rowGetJson : PgType → Option (Option PgValue) →
    Except String (Option Json) :=
  rowGetAs jsonAccepts
    (fun v => match v with | .jsonv x => some x | _ => none)

/-- `row.get::<_, Option<chrono::NaiveDateTime>>(idx)`: accepts only
TIMESTAMP, so on a TIMESTAMPTZ column this errs (the program panics)
even for SQL NULL. -/
def rowGetTimestamp : PgType → Option (Option PgValue) →
    Except String (Option String) :=
  rowGetAs naiveDateTimeAccepts
    (fun v => match v with | .ts x => some x | _ => none)

/-- `row.get::<_, Option<chrono::NaiveDate>>(idx)`. -/
def rowGetDate : PgType → Option (Option PgValue) →
    Except String (Option String) :=
  rowGetAs dateAccepts
    (fun v => match v with | .date x => some x | _ => none)

/-- `if let Ok(None) = ...` on the string probe. -/
def isOkNoneString : Except Unit (Option String) → Bool
  | .ok none => true
  | _ => false

/-- `Result::ok().flatten().is_none()` on a probe result. -/
def probeIsNone {α : Type} (r : Except Unit (Option α)) : Bool :=
  (r.toOption.join).isNone

/-- The typed dispatch arms of `row_value_to_json`
(src/client.rs:314-361); each arm requests its Rust type against the
column's declared type. -/
def rowValueArm (ty : PgType) (cell : Option (Option PgValue)) :
    Except String Json :=
  match ty with
  | .bool =>
    match rowGetBool .bool cell with
    | .error e => .error e
    | .ok v => .ok (v.elim Json.null Json.bool)
  | .int2 =>
    match rowGetI16 .int2 cell with
    | .error e => .error e
    | .ok v => .ok (v.elim Json.null Json.int)
  | .int4 =>
    match rowGetI32 .int4 cell with
    | .error e => .error e
    | .ok v => .ok (v.elim Json.null Json.int)
  | .int8 =>
    match rowGetI64 .int8 cell with
    | .error e => .error e
    | .ok v => .ok (v.elim Json.null Json.int)
  | .float4 =>
    match rowGetF32 .float4 cell with
    | .error e => .error e
    | .ok v => .ok (v.elim Json.null Json.float)
  | .float8 =>
    match rowGetF64 .float8 cell with
    | .error e => .error e
    | .ok v => .ok (v.elim Json.null Json.float)
  | .json =>
    match rowGetJson .json cell with
    | .error e => .error e
    | .ok v => .ok (v.getD Json.null)
  | .jsonb =>
    match rowGetJson .jsonb cell with
    | .error e => .error e
    | .ok v => .ok (v.getD Json.null)
  | .timestamptz =>
    -- the arm requests NaiveDateTime, which does not accept TIMESTAMPTZ
    match rowGetTimestamp .timestamptz cell with
    | .error e => .error e
    | .ok v => .ok (v.elim Json.null Json.str)
  | .timestamp =>
    match rowGetTimestamp .timestamp cell with
    | .error e => .error e
    | .ok v => .ok (v.elim Json.null Json.str)
  | .date =>
    match rowGetDate .date cell with
    | .error e => .error e
    | .ok v => .ok (v.elim Json.null Json.str)
  | .uuid =>
    -- `row.try_get(idx).ok().flatten()`: errors are swallowed to None
    .ok (((tryGetString .uuid cell).toOption.join).elim Json.null Json.str)
  | .text =>
    .ok (((tryGetString .text cell).toOption.join).elim Json.null Json.str)
  | .other nm =>
    .ok (((tryGetString (.other nm) cell).toOption.join).elim
      Json.null Json.str)

/-- `row_value_to_json` (src/client.rs:298-362).  The leading block
probes three typed extractions and returns NULL early when all three
come back empty AND the string probe is `Ok(None)` — which requires
the declared type to be one `String` accepts; otherwise control falls
through to the typed dispatch.  `row.columns().get(idx).unwrap()`
panics on a bad index, modelled as an error. -/
def row_value_to_json (row : Row) (idx : Nat) : Except String Json :=
  match row.cols.get? idx with
  | none => .error "column index out of range"
  | some col =>
    let cell := cellAt row idx
    if probeIsNone (tryGetBytes col.ty cell)
        && probeIsNone (tryGetString col.ty cell)
        && probeIsNone (tryGetI32 col.ty cell)
        && isOkNoneString (tryGetString col.ty cell)
    then .ok Json.null
    else rowValueArm col.ty cell

/-- The per-row conversion loop shared by `query` (src/client.rs:105-112)
and `rows_to_json` (src/client.rs:369-377): convert each column in
order, binding `columns[i] -> value`. -/
def convertRow (row : Row) : List String → Nat →
    Except String (List (String × Json))
  | [], _ => .ok []
  | c :: rest, i =>
    match row_value_to_json row i with
    | .error e => .error e
    | .ok v =>
      match convertRow row rest (i + 1) with
      | .error e => .error e
      | .ok tl => .ok ((c, v) :: tl)

/-- The row loop of `rows_to_json` and `query`: one JSON object per
row, in row order. -/
def rowsToJsonGo (columns : List String) :
    List Row → Except String (List Json)
  | [] => .ok []
  | r :: rs =>
    match convertRow r columns 0 with
    | .error e => .error e
    | .ok fields =>
      match rowsToJsonGo columns rs with
      | .error e => .error e
      | .ok tl => .ok (Json.obj fields :: tl)

/-- `rows_to_json` (src/client.rs:365-379). -/
def rows_to_json (rows : List Row) (stmt : Statement) :
    Except String (List Json) :=
  rowsToJsonGo (stmt.columns.map (fun c => c.name)) rows

/-- The conversion half of `PostgresClient::query`
(src/client.rs:100-118): same loop as `rows_to_json`, then the
`{rows, row_count, columns}` envelope with `row_count = rows.len()`. -/
def queryConvert (rows : List Row) (stmt : Statement) :
    Except String Json :=
  let columns := stmt.columns.map (fun c => c.name)
  match rows_to_json rows stmt with
  | .error e => .error e
  | .ok results =>
    .ok (Json.obj
      [("rows", Json.arr results),
       ("row_count", Json.int results.length),
       ("columns", Json.arr (columns.map Json.str))])

/-! ## Transactions (src/client.rs, `PostgresClient::transaction`)

The driver's transactional behaviour is modelled over an abstract
database state `α`: `exec db sql` returns the updated in-transaction
state plus rows-affected, or `none` on a statement failure; committing
installs the in-transaction state, while an error path drops the
transaction handle, which rolls it back (the committed state stays the
original). -/

/-- Error outcomes of `transaction`. -/
inductive TxError where
  | beginFailed
  | stmtFailed (index : Nat)
  | commitFailed
  deriving DecidableEq

/-- `TransactionResult`: the JSON `{committed, statements}` payload,
`statements` being `(statement index, rows_affected)` pairs. -/
structure TransactionResult where
  committed : Bool
  statements : List (Nat × Nat)
  deriving DecidableEq

/-- Full outcome of a `transaction` call: the returned result, the
committed database state after the call, and the trace of statements
actually submitted for execution (index, SQL), in submission order. -/
structure TxOutcome (α : Type) where
  result : Except TxError TransactionResult
  finalDb : α
  trace : List (Nat × String)

/-- The statement loop (src/client.rs:136-146): execute each statement
in order, accumulating `(index, rows_affected)`, stopping at the first
failure with its index. -/
def runTx {α : Type} (exec : α → String → Option (α × Nat)) :
    α → List String → Nat →
    Except Nat (α × List (Nat × Nat)) × List (Nat × String)
  | db, [], _ => (.ok (db, []), [])
  | db, s :: rest, i =>
    match exec db s with
    | none => (.error i, [(i, s)])
    | some (db', n) =>
      let r := runTx exec db' rest (i + 1)
      (r.1.map (fun p => (p.1, (i, n) :: p.2)), (i, s) :: r.2)

/-- `PostgresClient::transaction` (src/client.rs:132-154).  `beginOk`
models `client.transaction()` failing to start; `commitOk` models
`tx.commit()` failing.  On every error path the transaction handle is
dropped before commit, so the committed state is the original `db`. -/
def transaction {α : Type} (beginOk : Bool)
    (exec : α → String → Option (α × Nat)) (commitOk : α → Bool)
    (db : α) (statements : List String) : TxOutcome α :=
  if beginOk then
    match runTx exec db statements 0 with
    | (.error i, tr) => ⟨.error (.stmtFailed i), db, tr⟩
    | (.ok (db', rs), tr) =>
      if commitOk db' then ⟨.ok ⟨true, rs⟩, db', tr⟩
      else ⟨.error .commitFailed, db, tr⟩
  else ⟨.error .beginFailed, db, []⟩

/-! ## Daemon lifecycle: stop (src/main.rs, `cmd_stop`,
`pid_matches_process`) -/

/-- Substring containment on character lists (`str::contains`). -/
def listContainsSub (pat s : List Char) : Bool :=
  (List.range (s.length + 1)).any (fun i => pat.isPrefixOf (s.drop i))

/-- `str::contains(pat)` for string patterns. -/
def strContainsSub (s pat : String) : Bool :=
  listContainsSub pat.data s.data

/-- `str::parse::<i32>()`: optional sign, digits, within i32 range. -/
def parseI32 (s : String) : Option Int :=
  match s.data with
  | '+' :: rest =>
    (digitsToNat rest).bind
      (fun n => if n ≤ 2 ^ 31 - 1 then some (n : Int) else none)
  | '-' :: rest =>
    (digitsToNat rest).bind
      (fun n => if n ≤ 2 ^ 31 then some (-(n : Int)) else none)
  | l =>
    (digitsToNat l).bind
      (fun n => if n ≤ 2 ^ 31 - 1 then some (n : Int) else none)

/-- The world `cmd_stop` acts on.  `psComm pid` is the output of
`ps -p pid -o comm=` — `none` when the command fails or reports no such
process, `some out` its stdout on success. -/
structure StopWorld where
  socketExists : Bool
  /-- Result of the graceful path: `none` if connecting or the stop RPC
  failed, `some ok` the response's `ok` flag. -/
  gracefulStop : Option Bool
  /-- Contents of the PID file, `none` if unreadable. -/
  pidFile : Option String
  psComm : Int → Option String

/-- `pid_matches_process` (src/main.rs:274-286): `ps` must succeed and
its trimmed output must contain the expected name. -/
def pid_matches_process (ps : Int → Option String) (pid : Int)
    (expected : String) : Bool :=
  match ps pid with
  | some out => strContainsSub (trimChars out) expected
  | none => false

/-- Observable outcome of `cmd_stop`: whether SIGTERM was sent (and to
which PID), whether the socket/PID files were cleaned up, and the
returned result. -/
structure StopOutcome where
  signaled : Option Int
  cleanedUp : Bool
  result : Except String Unit

/-- `cmd_stop` (src/main.rs:234-272). -/
def cmd_stop (w : StopWorld) : StopOutcome :=
  -- graceful path: socket exists, client connects, stop() returns ok
  if w.socketExists ∧ w.gracefulStop = some true then
    ⟨none, false, .ok ()⟩
  else
    match w.pidFile with
    | none => ⟨none, false, .error "Failed to read PID file"⟩
    | some pidStr =>
      match parseI32 (trimChars pidStr) with
      | none => ⟨none, false, .error "Invalid PID in file"⟩
      | some pid =>
        if pid_matches_process w.psComm pid "fgp-postgres" then
          ⟨some pid, true, .ok ()⟩
        else
          ⟨none, false, .error "Refusing to stop PID: unexpected process"⟩

/-! ## Daemon lifecycle: status (src/main.rs, `cmd_status`) -/

/-- What happens when `cmd_status` tries the socket: the connection
fails, or it succeeds and the subsequent write/read either fails with
an I/O error or yields a response line. -/
inductive ConnectAttempt where
  | failed (err : String)
  | connected (io : Except String String)

/-- The world `cmd_status` acts on. -/
structure StatusWorld where
  socketExists : Bool
  connect : ConnectAttempt

/-- The three status reports. -/
inductive StatusReport where
  | notRunning
  | running (health : String)
  | notResponding (err : String)
  deriving DecidableEq

/-- Observable outcome of `cmd_status`: the report (or a propagated I/O
error) and whether a connection was attempted. -/
structure StatusOutcome where
  report : Except String StatusReport
  connectionAttempted : Bool

/-- `cmd_status` (src/main.rs:288-321): missing socket reports NOT
RUNNING without connecting; a connection failure reports NOT
RESPONDING; a successful connection sends one health request and
reports RUNNING with the (trimmed) response; write/read errors
propagate via `?`. -/
def cmd_status (w : StatusWorld) : StatusOutcome :=
  if w.socketExists then
    match w.connect with
    | .connected io =>
      match io with
      | .ok response => ⟨.ok (.running (trimChars response)), true⟩
      | .error e => ⟨.error e, true⟩
    | .failed e => ⟨.ok (.notResponding e), true⟩
  else
    ⟨.ok .notRunning, false⟩

/-! ## Service adapter (src/service.rs) -/

/-- The eight handlers of `PostgresService`. -/
inductive Handler where
  | health | query | execute | transaction | tables | schema | schemas
  | stats
  deriving DecidableEq

/-- The name-to-handler routing of `PostgresService::dispatch`
(src/service.rs:158-170): each arm's string patterns, in order. -/
def dispatchRoute (method : String) : Option Handler :=
  match method with
  | "health" => some .health
  | "query" | "postgres.query" => some .query
  | "execute" | "postgres.execute" => some .execute
  | "transaction" | "postgres.transaction" => some .transaction
  | "tables" | "postgres.tables" => some .tables
  | "schema" | "postgres.schema" => some .schema
  | "schemas" | "postgres.schemas" => some .schemas
  | "stats" | "postgres.stats" => some .stats
  | _ => none

/-- `dispatch` at the routing level: an unmatched name is the
`Unknown method` bail, a matched name invokes its handler with the
given parameters. -/
def dispatch (method : String) (params : List (String × Json)) :
    Except String (Handler × List (String × Json)) :=
  match dispatchRoute method with
  | some h => .ok (h, params)
  | none => .error ("Unknown method: " ++ method)

/-- Result of `PostgresClient::ping()` as seen by `on_start` and
`health_check`. -/
inductive PingResult where
  | okTrue
  | okFalse
  | err (e : String)
  deriving DecidableEq

/-- `PostgresService::on_start` (src/service.rs:223-246): a successful
ping (true or false) yields `Ok(())`; a ping error is logged and
returned as `Err`. -/
def on_start (ping : PingResult) : Except String Unit :=
  match ping with
  | .okTrue => .ok ()
  | .okFalse => .ok ()
  | .err e => .error e

/-- Success test on a fallible result. -/
def exceptIsOk {ε α : Type} : Except ε α → Bool
  | .ok _ => true
  | .error _ => false

/-- All method names recognized by `dispatch`. -/
def knownMethods : List String :=
  ["health", "query", "postgres.query", "execute", "postgres.execute",
   "transaction", "postgres.transaction", "tables", "postgres.tables",
   "schema", "postgres.schema", "schemas", "postgres.schemas",
   "stats", "postgres.stats"]

/-! ## Theorems -/

/-- C8 counterexample: `on_start` with a failed connectivity probe does
NOT return success — it returns the probe's error, so a failed probe
prevents the adapter from starting, contradicting the claim's
degraded-start policy. -/
theorem on_start_failed_probe_counterexample :
    on_start (PingResult.err "connection refused")
        = Except.error "connection refused" ∧
    on_start (PingResult.err "connection refused") ≠ Except.ok () := by
  refine ⟨rfl, ?_⟩
  intro h
  exact Except.noConfusion h

/-- C8 (amended): `on_start` performs one connectivity probe; a probe
that completes with `Ok(true)` or `Ok(false)` (unhealthy ping answer)
is logged and still returns success, but a probe that fails with an
error makes `on_start` return that error, preventing startup. -/
theorem on_start_policy (e : String) :
    on_start PingResult.okTrue = Except.ok () ∧
    on_start PingResult.okFalse = Except.ok () ∧
    on_start (PingResult.err e) = Except.error e :=
  ⟨rfl, rfl, rfl⟩

/-- C9 counterexample: the catalog method `health` does not accept its
namespaced alias: `dispatch "postgres.health"` fails with the
unknown-method error while `dispatch "health"` resolves to the health
handler, so not every catalog method accepts both name forms. -/
theorem dispatch_health_alias_counterexample :
    dispatchRoute "health" = some Handler.health ∧
    dispatchRoute "postgres.health" = none ∧
    dispatch "postgres.health" []
        = Except.error "Unknown method: postgres.health" :=
  ⟨rfl, rfl, rfl⟩

/-- C9 (amended): each of `query`, `execute`, `transaction`, `tables`,
`schema`, `schemas`, `stats` accepts both its short name and its
`postgres.`-namespaced alias, resolving to the same handler; `health`
accepts only its short name (its namespaced form is rejected as
unknown); and every name outside the recognized list fails with an
unknown-method error. -/
theorem dispatch_aliases (m : String) (hm : m ∉ knownMethods) :
    (dispatchRoute "query" = some Handler.query ∧
     dispatchRoute "postgres.query" = some Handler.query) ∧
    (dispatchRoute "execute" = some Handler.execute ∧
     dispatchRoute "postgres.execute" = some Handler.execute) ∧
    (dispatchRoute "transaction" = some Handler.transaction ∧
     dispatchRoute "postgres.transaction" = some Handler.transaction) ∧
    (dispatchRoute "tables" = some Handler.tables ∧
     dispatchRoute "postgres.tables" = some Handler.tables) ∧
    (dispatchRoute "schema" = some Handler.schema ∧
     dispatchRoute "postgres.schema" = some Handler.schema) ∧
    (dispatchRoute "schemas" = some Handler.schemas ∧
     dispatchRoute "postgres.schemas" = some Handler.schemas) ∧
    (dispatchRoute "stats" = some Handler.stats ∧
     dispatchRoute "postgres.stats" = some Handler.stats) ∧
    dispatchRoute "health" = some Handler.health ∧
    dispatchRoute m = none ∧
    (∀ p, dispatch m p = Except.error ("Unknown method: " ++ m)) := by
  simp only [knownMethods, List.mem_cons, List.not_mem_nil, or_false,
    not_or] at hm
  obtain ⟨h1, h2, h3, h4, h5, h6, h7, h8, h9, h10, h11, h12, h13, h14,
    h15⟩ := hm
  have hroute : dispatchRoute m = none := by
    unfold dispatchRoute
    split
    all_goals first
      | rfl
      | (exfalso; simp_all)
  refine ⟨⟨rfl, rfl⟩, ⟨rfl, rfl⟩, ⟨rfl, rfl⟩, ⟨rfl, rfl⟩, ⟨rfl, rfl⟩,
    ⟨rfl, rfl⟩, ⟨rfl, rfl⟩, rfl, hroute, ?_⟩
  intro p
  unfold dispatch
  rw [hroute]

/-- C9 witness: the amended theorem applied at the concrete
unrecognized name `frobnicate`. -/
theorem dispatch_aliases_witness :
    dispatchRoute "frobnicate" = none ∧
    dispatch "frobnicate" [] = Except.error "Unknown method: frobnicate" := by
  have h := dispatch_aliases "frobnicate" (by decide)
  exact ⟨h.2.2.2.2.2.2.2.2.1, h.2.2.2.2.2.2.2.2.2 []⟩

/-- C6: status probing distinguishes three outcomes: a missing socket
reports NOT RUNNING with no connection attempt; an existing socket with
a failed connection reports NOT RESPONDING; an existing socket with a
successful connection and health round trip reports RUNNING with the
health payload; NOT RUNNING and NOT RESPONDING are distinct reports. -/
theorem cmd_status_trichotomy (w : StatusWorld) :
    (w.socketExists = false →
      cmd_status w = ⟨Except.ok StatusReport.notRunning, false⟩) ∧
    (∀ e, w.socketExists = true → w.connect = ConnectAttempt.failed e →
      cmd_status w = ⟨Except.ok (StatusReport.notResponding e), true⟩) ∧
    (∀ resp, w.socketExists = true →
      w.connect = ConnectAttempt.connected (Except.ok resp) →
      cmd_status w
          = ⟨Except.ok (StatusReport.running (trimChars resp)), true⟩) ∧
    (∀ e, StatusReport.notRunning ≠ StatusReport.notResponding e) := by
  refine ⟨?_, ?_, ?_, ?_⟩
  · intro h; simp [cmd_status, h]
  · intro e hs hc; simp [cmd_status, hs, hc]
  · intro resp hs hc; simp [cmd_status, hs, hc]
  · intro e h; exact StatusReport.noConfusion h

/-- C6 witness: the theorem applied to three concrete worlds, one per
outcome. -/
theorem cmd_status_trichotomy_witness :
    cmd_status ⟨false, ConnectAttempt.failed "unused"⟩
        = ⟨Except.ok StatusReport.notRunning, false⟩ ∧
    cmd_status ⟨true, ConnectAttempt.failed "refused"⟩
        = ⟨Except.ok (StatusReport.notResponding "refused"), true⟩ ∧
    cmd_status ⟨true, ConnectAttempt.connected (Except.ok "{}")⟩
        = ⟨Except.ok (StatusReport.running (trimChars "{}")), true⟩ :=
  ⟨(cmd_status_trichotomy ⟨false, ConnectAttempt.failed "unused"⟩).1 rfl,
   (cmd_status_trichotomy ⟨true, ConnectAttempt.failed "refused"⟩).2.1
     "refused" rfl rfl,
   (cmd_status_trichotomy
     ⟨true, ConnectAttempt.connected (Except.ok "{}")⟩).2.2.1 "{}" rfl rfl⟩

/-- C5: when the graceful path does not succeed and `cmd_stop` reads a
PID from the PID file, and the live process's command name does not
contain the expected daemon name, stop is refused: no signal is sent,
no cleanup happens, and an error is returned. -/
theorem cmd_stop_refuses_unexpected_process (w : StopWorld)
    (pidStr : String) (pid : Int) (comm : String)
    (hgrace : ¬(w.socketExists = true ∧ w.gracefulStop = some true))
    (hfile : w.pidFile = some pidStr)
    (hpid : parseI32 (trimChars pidStr) = some pid)
    (hcomm : w.psComm pid = some comm)
    (hmatch : strContainsSub (trimChars comm) "fgp-postgres" = false) :
    (cmd_stop w).signaled = none ∧ (cmd_stop w).cleanedUp = false ∧
    (cmd_stop w).result
        = Except.error "Refusing to stop PID: unexpected process" := by
  have hpm : pid_matches_process w.psComm pid "fgp-postgres" = false := by
    simp [pid_matches_process, hcomm, hmatch]
  have hgrace' : ¬(w.socketExists ∧ w.gracefulStop = some true) := by
    intro h; exact hgrace ⟨h.1, h.2⟩
  simp [cmd_stop, hgrace', hfile, hpid, hpm]

/-- C5 witness: a world with no live daemon socket, a PID file naming
PID 4242, and `ps` reporting the command name `bash`. -/
theorem cmd_stop_refuses_unexpected_process_witness :
    (cmd_stop ⟨false, none, some "4242", fun _ => some "bash"⟩).signaled
        = none ∧
    (cmd_stop ⟨false, none, some "4242", fun _ => some "bash"⟩).cleanedUp
        = false ∧
    (cmd_stop ⟨false, none, some "4242", fun _ => some "bash"⟩).result
        = Except.error "Refusing to stop PID: unexpected process" :=
  cmd_stop_refuses_unexpected_process
    ⟨false, none, some "4242", fun _ => some "bash"⟩ "4242" 4242 "bash"
    (by simp) rfl (by decide) rfl (by decide)

/-- C1: connection resolution is strict first-match-wins with no
merging: a set `DATABASE_URL` makes its parse result the answer even if
discrete variables are set; otherwise a set `PGHOST` selects the
discrete-environment descriptor; otherwise the connections file is
consulted, the entry being chosen by the explicit name if given and by
the file's `default` otherwise (a URL entry is parsed like tier 1, a
discrete entry is defaulted like tier 2); and when no tier yields a
descriptor the result is the no-connection-configured error. -/
theorem resolve_connection_precedence (env : Env)
    (parseUrl : String → Option ParsedUrl) (configFile : Option String)
    (parseConfig : String → Option ConnectionsConfig)
    (name : Option String) :
    (∀ u, env "DATABASE_URL" = some u →
      resolve_connection env parseUrl configFile parseConfig name
        = match parseUrl u with
          | some p => .ok (from_url p)
          | none => .error (.urlParse u)) ∧
    (env "DATABASE_URL" = none → (env "PGHOST").isSome →
      resolve_connection env parseUrl configFile parseConfig name
        = .ok (from_env env)) ∧
    (∀ contents config, env "DATABASE_URL" = none → env "PGHOST" = none →
      configFile = some contents → parseConfig contents = some config →
      (∀ n conn, name.orElse (fun _ => config.defaultName) = some n →
        config.connections.lookup n = some conn →
        resolve_connection env parseUrl configFile parseConfig name
          = match conn.url with
            | some u =>
              match parseUrl u with
              | some p => .ok (from_url p)
              | none => .error (.urlParse u)
            | none => .ok (namedConnectionConfig conn)) ∧
      (∀ n, name.orElse (fun _ => config.defaultName) = some n →
        config.connections.lookup n = none →
        resolve_connection env parseUrl configFile parseConfig name
          = .error .noneConfigured) ∧
      (name.orElse (fun _ => config.defaultName) = none →
        resolve_connection env parseUrl configFile parseConfig name
          = .error .noneConfigured)) ∧
    (env "DATABASE_URL" = none → env "PGHOST" = none → configFile = none →
      resolve_connection env parseUrl configFile parseConfig name
        = .error .noneConfigured) := by
  refine ⟨?_, ?_, ?_, ?_⟩
  · intro u hu
    simp only [resolve_connection, hu]
  · intro hdb hhost
    simp only [resolve_connection, hdb, if_pos hhost]
  · intro contents config hdb hhost hfile hparse
    have hhost' : (env "PGHOST").isSome = false := by simp [hhost]
    refine ⟨?_, ?_, ?_⟩
    · intro n conn hn hconn
      simp only [resolve_connection, hdb, hhost', Bool.false_eq_true,
        if_false, hfile, hparse, hn, hconn]
    · intro n hn hconn
      simp only [resolve_connection, hdb, hhost', Bool.false_eq_true,
        if_false, hfile, hparse, hn, hconn]
    · intro hn
      simp only [resolve_connection, hdb, hhost', Bool.false_eq_true,
        if_false, hfile, hparse, hn]
  · intro hdb hhost hfile
    have hhost' : (env "PGHOST").isSome = false := by simp [hhost]
    simp only [resolve_connection, hdb, hhost', Bool.false_eq_true,
      if_false, hfile]

/-- Concrete environment for the C1 witness: `DATABASE_URL` and the
discrete variables are all set. -/
def envUrlAndDiscrete : Env := fun k =>
  if k = "DATABASE_URL" then some "postgres://u:p@h:1/db"
  else if k = "PGHOST" then some "otherhost"
  else if k = "PGUSER" then some "otheruser"
  else none

/-- Concrete URL parser for the C1 witness: parses exactly the fixture
URL. -/
def parseUrlFixture : String → Option ParsedUrl := fun s =>
  if s = "postgres://u:p@h:1/db" then
    some ⟨some "h", some 1, "u", some "p", "/db", []⟩
  else none

/-- Concrete connections file for the C1 witness: `default: "a"` with
entries `a` and `b`. -/
def configFixture : ConnectionsConfig :=
  ⟨[("a", ⟨none, some "hostA", none, none, none, none, none⟩),
    ("b", ⟨none, some "hostB", some 7, some "userB", none, some "dbB",
      none⟩)],
   some "a"⟩

/-- C1 witness: with both `DATABASE_URL` and discrete variables set the
URL tier wins; with neither set, a file with `default: "a"` resolves to
entry `a` with no explicit name and to entry `b` with explicit name
`"b"`; with no source at all resolution fails. -/
theorem resolve_connection_precedence_witness :
    resolve_connection envUrlAndDiscrete parseUrlFixture none
        (fun _ => none) none
      = .ok ⟨"h", 1, "u", some "p", "db", false⟩ ∧
    resolve_connection (fun _ => none) parseUrlFixture (some "file")
        (fun _ => some configFixture) none
      = .ok ⟨"hostA", 5432, "postgres", none, "postgres", false⟩ ∧
    resolve_connection (fun _ => none) parseUrlFixture (some "file")
        (fun _ => some configFixture) (some "b")
      = .ok ⟨"hostB", 7, "userB", none, "dbB", false⟩ ∧
    resolve_connection (fun _ => none) parseUrlFixture none
        (fun _ => none) none
      = .error .noneConfigured := by
  refine ⟨?_, ?_, ?_, ?_⟩
  · have h := (resolve_connection_precedence envUrlAndDiscrete
      parseUrlFixture none (fun _ => none) none).1
      "postgres://u:p@h:1/db" (by decide)
    rw [h]; rfl
  · have h := ((resolve_connection_precedence (fun _ => none)
      parseUrlFixture (some "file") (fun _ => some configFixture)
      none).2.2.1 "file" configFixture rfl rfl rfl rfl).1
      "a" ⟨none, some "hostA", none, none, none, none, none⟩
      (by decide) (by decide)
    rw [h]; rfl
  · have h := ((resolve_connection_precedence (fun _ => none)
      parseUrlFixture (some "file") (fun _ => some configFixture)
      (some "b")).2.2.1 "file" configFixture rfl rfl rfl rfl).1
      "b" ⟨none, some "hostB", some 7, some "userB", none, some "dbB",
        none⟩
      (by decide) (by decide)
    rw [h]; rfl
  · exact (resolve_connection_precedence (fun _ => none) parseUrlFixture
      none (fun _ => none) none).2.2.2 rfl rfl rfl

/-- C10: when `DATABASE_URL` is unset, the discrete environment tier is
consulted exactly when `PGHOST` is set: a set `PGHOST` yields the
discrete-environment descriptor; with `PGHOST` unset the outcome is
identical for any two environments (in particular ones setting PGUSER,
PGDATABASE, PGPASSWORD, PGPORT or PGSSLMODE), and with no connections
file those variables alone produce an error, never a descriptor. -/
theorem resolve_pghost_gates_env_tier (env env2 : Env)
    (parseUrl : String → Option ParsedUrl) (configFile : Option String)
    (parseConfig : String → Option ConnectionsConfig)
    (name : Option String) :
    (env "DATABASE_URL" = none → (env "PGHOST").isSome →
      resolve_connection env parseUrl configFile parseConfig name
        = .ok (from_env env)) ∧
    (env "DATABASE_URL" = none → env "PGHOST" = none →
      env2 "DATABASE_URL" = none → env2 "PGHOST" = none →
      resolve_connection env parseUrl configFile parseConfig name
        = resolve_connection env2 parseUrl configFile parseConfig name) ∧
    (env "DATABASE_URL" = none → env "PGHOST" = none → configFile = none →
      resolve_connection env parseUrl configFile parseConfig name
        = .error .noneConfigured) := by
  refine ⟨?_, ?_, ?_⟩
  · intro hdb hhost
    simp only [resolve_connection, hdb, if_pos hhost]
  · intro hdb hhost hdb2 hhost2
    have h1 : (env "PGHOST").isSome = false := by simp [hhost]
    have h2 : (env2 "PGHOST").isSome = false := by simp [hhost2]
    simp only [resolve_connection, hdb, hdb2, h1, h2,
      Bool.false_eq_true, if_false]
  · intro hdb hhost hfile
    have h1 : (env "PGHOST").isSome = false := by simp [hhost]
    simp only [resolve_connection, hdb, h1, Bool.false_eq_true,
      if_false, hfile]

/-- Concrete environment for the C10 witness: every discrete libpq
variable except `PGHOST` is set. -/
def envDiscreteNoHost : Env := fun k =>
  if k = "PGUSER" then some "alice"
  else if k = "PGDATABASE" then some "prod"
  else if k = "PGPASSWORD" then some "hunter2"
  else if k = "PGPORT" then some "6000"
  else if k = "PGSSLMODE" then some "require"
  else none

/-- C10 witness: with `PGHOST` unset, an environment setting all the
other discrete variables resolves exactly like the empty environment,
and with no connections file it yields the configuration error — those
variables alone never produce a descriptor. -/
theorem resolve_pghost_gates_env_tier_witness :
    resolve_connection envDiscreteNoHost (fun _ => none) none
        (fun _ => none) none
      = resolve_connection (fun _ => none) (fun _ => none) none
        (fun _ => none) none ∧
    resolve_connection envDiscreteNoHost (fun _ => none) none
        (fun _ => none) none
      = .error .noneConfigured :=
  ⟨(resolve_pghost_gates_env_tier envDiscreteNoHost (fun _ => none)
      (fun _ => none) none (fun _ => none) none).2.1
      (by decide) (by decide) rfl rfl,
   (resolve_pghost_gates_env_tier envDiscreteNoHost (fun _ => none)
      (fun _ => none) none (fun _ => none) none).2.2
      (by decide) (by decide) rfl⟩

/-- C3 (code bug): converting a SQL NULL column yields the dynamic
null for every supported declared type EXCEPT `timestamptz`.  For a
`TIMESTAMPTZ` column the `Type::TIMESTAMPTZ | Type::TIMESTAMP` arm
(src/client.rs:343-346) requests `Option<chrono::NaiveDateTime>`,
whose `accepts` set is `TIMESTAMP` only; the driver checks `accepts`
against the declared type before any null handling, and the leading
string-probe early return also fails `accepts` for `timestamptz`, so
`row.get` panics with `WrongType` even though the value is NULL —
against the spec's "null regardless of declared type".  This theorem
evaluates the embedded code at the failing input (a NULL
`timestamptz` cell errs where the claim requires null) and, alongside
it, at a NULL cell of every other supported type (each yielding
null). -/
theorem null_timestamptz_conversion_bug :
    row_value_to_json ⟨[⟨"c", .timestamptz⟩], [none]⟩ 0
        = Except.error "conversion failed" ∧
    row_value_to_json ⟨[⟨"c", .bool⟩], [none]⟩ 0 = Except.ok Json.null ∧
    row_value_to_json ⟨[⟨"c", .int2⟩], [none]⟩ 0 = Except.ok Json.null ∧
    row_value_to_json ⟨[⟨"c", .int4⟩], [none]⟩ 0 = Except.ok Json.null ∧
    row_value_to_json ⟨[⟨"c", .int8⟩], [none]⟩ 0 = Except.ok Json.null ∧
    row_value_to_json ⟨[⟨"c", .float4⟩], [none]⟩ 0 = Except.ok Json.null ∧
    row_value_to_json ⟨[⟨"c", .float8⟩], [none]⟩ 0 = Except.ok Json.null ∧
    row_value_to_json ⟨[⟨"c", .json⟩], [none]⟩ 0 = Except.ok Json.null ∧
    row_value_to_json ⟨[⟨"c", .jsonb⟩], [none]⟩ 0 = Except.ok Json.null ∧
    row_value_to_json ⟨[⟨"c", .timestamp⟩], [none]⟩ 0
        = Except.ok Json.null ∧
    row_value_to_json ⟨[⟨"c", .date⟩], [none]⟩ 0 = Except.ok Json.null ∧
    row_value_to_json ⟨[⟨"c", .uuid⟩], [none]⟩ 0 = Except.ok Json.null ∧
    row_value_to_json ⟨[⟨"c", .text⟩], [none]⟩ 0 = Except.ok Json.null ∧
    row_value_to_json ⟨[⟨"c", .other "citext"⟩], [none]⟩ 0
        = Except.ok Json.null :=
  ⟨rfl, rfl, rfl, rfl, rfl, rfl, rfl, rfl, rfl, rfl, rfl, rfl, rfl, rfl⟩

/-- If the per-row column loop succeeds, every column index it visited
converted successfully. -/
theorem convertRow_ok_cells (row : Row) :
    ∀ (names : List String) (i : Nat) (l : List (String × Json)),
      convertRow row names i = .ok l →
      ∀ j, j < names.length →
        exceptIsOk (row_value_to_json row (i + j)) = true := by
  intro names
  induction names with
  | nil =>
    intro i l _ j hj
    simp at hj
  | cons c rest ih =>
    intro i l h j hj
    unfold convertRow at h
    cases hv : row_value_to_json row i with
    | error e => rw [hv] at h; exact Except.noConfusion h
    | ok v =>
      rw [hv] at h
      cases htl : convertRow row rest (i + 1) with
      | error e => rw [htl] at h; exact Except.noConfusion h
      | ok tl =>
        cases j with
        | zero => simp [exceptIsOk, hv]
        | succ j' =>
          have hj' : j' < rest.length := by
            simpa [Nat.succ_lt_succ_iff] using hj
          have := ih (i + 1) tl htl j' hj'
          have harith : i + 1 + j' = i + (j' + 1) := by omega
          rwa [harith] at this

/-- If the row-set loop succeeds, every row's column loop succeeded. -/
theorem rowsToJsonGo_ok_rows (columns : List String) :
    ∀ (rows : List Row) (l : List Json),
      rowsToJsonGo columns rows = .ok l →
      ∀ r ∈ rows, ∃ fl, convertRow r columns 0 = .ok fl := by
  intro rows
  induction rows with
  | nil =>
    intro l _ r hr
    simp at hr
  | cons r0 rs ih =>
    intro l h r hr
    unfold rowsToJsonGo at h
    cases hc : convertRow r0 columns 0 with
    | error e => rw [hc] at h; exact Except.noConfusion h
    | ok fields =>
      rw [hc] at h
      cases hrec : rowsToJsonGo columns rs with
      | error e => rw [hrec] at h; exact Except.noConfusion h
      | ok tl =>
        rcases List.mem_cons.mp hr with hr0 | hrs
        · exact ⟨fields, hr0 ▸ hc⟩
        · exact ih tl hrec r hrs

/-- C4: a conversion error for one column of one row (the modelled
panic of a typed extraction — not a NULL, which converts to null, and
not the swallowed text-fallback probe) makes the whole row-set
conversion fail, in both `rows_to_json` and `query`'s conversion; the
failing column is never skipped or nulled out. -/
theorem conversion_failure_is_hard_error (rows : List Row)
    (stmt : Statement) (row : Row) (hrow : row ∈ rows) (j : Nat)
    (hj : j < stmt.columns.length) (e : String)
    (herr : row_value_to_json row j = .error e) :
    exceptIsOk (rows_to_json rows stmt) = false ∧
    exceptIsOk (queryConvert rows stmt) = false := by
  have hmain : exceptIsOk (rows_to_json rows stmt) = false := by
    cases h : rows_to_json rows stmt with
    | error _ => rfl
    | ok l =>
      exfalso
      have h' : rowsToJsonGo (stmt.columns.map (fun c => c.name)) rows
          = .ok l := h
      obtain ⟨fl, hfl⟩ := rowsToJsonGo_ok_rows
        (stmt.columns.map (fun c => c.name)) rows l h' row hrow
      have hj' : j < (stmt.columns.map (fun c => c.name)).length := by
        simpa using hj
      have := convertRow_ok_cells row
        (stmt.columns.map (fun c => c.name)) 0 fl hfl j hj'
      rw [Nat.zero_add, herr] at this
      exact Bool.noConfusion this
  refine ⟨hmain, ?_⟩
  unfold queryConvert
  cases h : rows_to_json rows stmt with
  | error _ => rfl
  | ok l => rw [h] at hmain; exact absurd hmain (by simp [exceptIsOk])

/-- C4 witness: a one-row, one-column row set whose BOOL column holds
an INT4 payload (a wire/type mismatch, neither NULL nor the text
fallback); both conversions fail. -/
theorem conversion_failure_is_hard_error_witness :
    row_value_to_json ⟨[⟨"flag", .bool⟩], [some (.i4 5)]⟩ 0
        = Except.error "conversion failed" ∧
    exceptIsOk (rows_to_json [⟨[⟨"flag", .bool⟩], [some (.i4 5)]⟩]
        ⟨[⟨"flag", .bool⟩]⟩) = false ∧
    exceptIsOk (queryConvert [⟨[⟨"flag", .bool⟩], [some (.i4 5)]⟩]
        ⟨[⟨"flag", .bool⟩]⟩) = false :=
  ⟨rfl,
   (conversion_failure_is_hard_error
      [⟨[⟨"flag", .bool⟩], [some (.i4 5)]⟩] ⟨[⟨"flag", .bool⟩]⟩
      ⟨[⟨"flag", .bool⟩], [some (.i4 5)]⟩ (by simp) 0 (by simp)
      "conversion failed" rfl).1,
   (conversion_failure_is_hard_error
      [⟨[⟨"flag", .bool⟩], [some (.i4 5)]⟩] ⟨[⟨"flag", .bool⟩]⟩
      ⟨[⟨"flag", .bool⟩], [some (.i4 5)]⟩ (by simp) 0 (by simp)
      "conversion failed" rfl).2⟩

/-- The statement trace of the transaction loop is the enumeration,
from the starting index, of the prefix of statements it attempted. -/
theorem runTx_trace_prefix {α : Type}
    (exec : α → String → Option (α × Nat)) :
    ∀ (stmts : List String) (db : α) (i : Nat),
      (runTx exec db stmts i).2
        = List.enumFrom i
            (stmts.take (runTx exec db stmts i).2.length) := by
  intro stmts
  induction stmts with
  | nil => intro db i; rfl
  | cons s rest ih =>
    intro db i
    unfold runTx
    cases he : exec db s with
    | none => rfl
    | some p =>
      simp only [List.length_cons, List.take_succ_cons, List.enumFrom,
        List.cons.injEq, true_and]
      exact ih p.1 (i + 1)

/-- When the transaction loop stops at a failing statement `j`, `j`
lies within the statement list and the trace covers exactly the
statements up to and including `j`. -/
theorem runTx_error {α : Type} (exec : α → String → Option (α × Nat)) :
    ∀ (stmts : List String) (db : α) (i j : Nat)
      (tr : List (Nat × String)),
      runTx exec db stmts i = (.error j, tr) →
      i ≤ j ∧ j < i + stmts.length ∧ tr.length = j - i + 1 := by
  intro stmts
  induction stmts with
  | nil =>
    intro db i j tr h
    unfold runTx at h
    injection h with h1 h2
    exact Except.noConfusion h1
  | cons s rest ih =>
    intro db i j tr h
    unfold runTx at h
    cases he : exec db s with
    | none =>
      rw [he] at h
      injection h with h1 h2
      injection h1 with hj
      subst hj
      subst h2
      refine ⟨Nat.le_refl _, ?_, ?_⟩ <;> simp
    | some p =>
      rw [he] at h
      injection h with h1 h2
      cases hr : (runTx exec p.1 rest (i + 1)).1 with
      | ok v =>
        rw [hr] at h1
        exact Except.noConfusion h1
      | error j' =>
        rw [hr] at h1
        injection h1 with hj
        subst hj
        have hq : runTx exec p.1 rest (i + 1)
            = (.error j', (runTx exec p.1 rest (i + 1)).2) := by
          rw [← hr]
        obtain ⟨ha, hb, hc⟩ := ih p.1 (i + 1) j' _ hq
        subst h2
        simp only [List.length_cons]
        omega

/-- When the transaction loop succeeds, every statement was attempted
in order and the accumulated results carry the indices `0..n-1` in
order. -/
theorem runTx_ok {α : Type} (exec : α → String → Option (α × Nat)) :
    ∀ (stmts : List String) (db : α) (i : Nat) (db' : α)
      (rs : List (Nat × Nat)) (tr : List (Nat × String)),
      runTx exec db stmts i = (.ok (db', rs), tr) →
      tr = List.enumFrom i stmts ∧
      rs.map Prod.fst = List.range' i stmts.length := by
  intro stmts
  induction stmts with
  | nil =>
    intro db i db' rs tr h
    unfold runTx at h
    injection h with h1 h2
    injection h1 with h3
    injection h3 with h4 h5
    subst h2
    subst h5
    exact ⟨rfl, rfl⟩
  | cons s rest ih =>
    intro db i db' rs tr h
    unfold runTx at h
    cases he : exec db s with
    | none =>
      rw [he] at h
      injection h with h1 h2
      exact Except.noConfusion h1
    | some p =>
      rw [he] at h
      injection h with h1 h2
      cases hr : (runTx exec p.1 rest (i + 1)).1 with
      | error j =>
        rw [hr] at h1
        exact Except.noConfusion h1
      | ok v =>
        rw [hr] at h1
        injection h1 with h3
        injection h3 with h4 h5
        have hq : runTx exec p.1 rest (i + 1)
            = (.ok v, (runTx exec p.1 rest (i + 1)).2) := by
          rw [← hr]
        obtain ⟨ha, hb⟩ := ih p.1 (i + 1) v.1 v.2 _ hq
        subst h2
        subst h5
        constructor
        · simp only [List.enumFrom, List.cons.injEq, true_and]
          exact ha
        · simp only [List.map_cons, List.length_cons,
            List.range'_succ, List.cons.injEq]
          exact ⟨trivial, hb⟩

/-- C2: `transaction` executes the statements strictly in the given
order (its trace is an in-order prefix of the statement list); when a
statement fails, the result is an error carrying that statement's
index (never a `committed=true` result), no later statement is
attempted, and the committed database state is the original one (full
rollback); a successful result has `committed=true`, is produced only
when every statement was executed successfully, and reports the
statements in order; and every non-success outcome leaves the database
state untouched. -/
theorem transaction_all_or_nothing {α : Type} (beginOk : Bool)
    (exec : α → String → Option (α × Nat)) (commitOk : α → Bool)
    (db : α) (stmts : List String) :
    ((transaction beginOk exec commitOk db stmts).trace
      = List.enumFrom 0 (stmts.take
          (transaction beginOk exec commitOk db stmts).trace.length)) ∧
    (∀ i, (transaction beginOk exec commitOk db stmts).result
          = .error (.stmtFailed i) →
      i < stmts.length ∧
      (transaction beginOk exec commitOk db stmts).trace.length = i + 1 ∧
      (transaction beginOk exec commitOk db stmts).finalDb = db) ∧
    (∀ r, (transaction beginOk exec commitOk db stmts).result = .ok r →
      r.committed = true ∧
      (transaction beginOk exec commitOk db stmts).trace
        = List.enumFrom 0 stmts ∧
      r.statements.map Prod.fst = List.range stmts.length) ∧
    (exceptIsOk (transaction beginOk exec commitOk db stmts).result
        = false →
      (transaction beginOk exec commitOk db stmts).finalDb = db) := by
  cases beginOk with
  | false =>
    refine ⟨rfl, ?_, ?_, fun _ => rfl⟩
    · intro i h
      injection h with h1
      exact TxError.noConfusion h1
    · intro r h
      exact Except.noConfusion h
  | true =>
    cases hrun : runTx exec db stmts 0 with
    | mk res tr =>
      cases res with
      | error j =>
        have htr : tr = (runTx exec db stmts 0).2 := by rw [hrun]
        have hpre := runTx_trace_prefix exec stmts db 0
        obtain ⟨-, hlt, hlen⟩ := runTx_error exec stmts db 0 j tr hrun
        have htx : transaction true exec commitOk db stmts
            = ⟨.error (.stmtFailed j), db, tr⟩ := by
          unfold transaction
          rw [hrun]
          rfl
        refine ⟨?_, ?_, ?_, ?_⟩
        · rw [htx, htr]
          exact hpre
        · intro i h
          rw [htx] at h
          injection h with h1
          injection h1 with h2
          subst h2
          rw [htx]
          refine ⟨by omega, by rw [hlen]; omega, rfl⟩
        · intro r h
          rw [htx] at h
          exact Except.noConfusion h
        · intro _
          rw [htx]
      | ok v =>
        obtain ⟨db1, rs⟩ := v
        obtain ⟨henum, hidx⟩ := runTx_ok exec stmts db 0 db1 rs tr hrun
        cases hcm : commitOk db1 with
        | true =>
          have htx : transaction true exec commitOk db stmts
              = ⟨.ok ⟨true, rs⟩, db1, tr⟩ := by
            unfold transaction
            rw [hrun]
            simp only [hcm, if_true]
          refine ⟨?_, ?_, ?_, ?_⟩
          · rw [htx, henum]
            simp [List.enumFrom_length]
          · intro i h
            rw [htx] at h
            exact Except.noConfusion h
          · intro r h
            rw [htx] at h
            injection h with h1
            subst h1
            refine ⟨rfl, by rw [htx, henum], ?_⟩
            rw [hidx, List.range_eq_range' stmts.length]
          · intro h
            rw [htx] at h
            exact Bool.noConfusion h
        | false =>
          have htx : transaction true exec commitOk db stmts
              = ⟨.error .commitFailed, db, tr⟩ := by
            unfold transaction
            rw [hrun]
            simp [hcm]
          refine ⟨?_, ?_, ?_, ?_⟩
          · rw [htx, henum]
            simp [List.enumFrom_length]
          · intro i h
            rw [htx] at h
            injection h with h1
            exact TxError.noConfusion h1
          · intro r h
            rw [htx] at h
            exact Except.noConfusion h
          · intro _
            rw [htx]

/-! ## The descriptor invariant (C7) -/

/-- Well-formedness of a parsed URL as a connection source: non-empty
username, non-empty database path, port (when present) in [1,65535]. -/
def goodParsed (p : ParsedUrl) : Prop :=
  p.username ≠ "" ∧ trimStartSlashes p.path ≠ "" ∧
  ∀ n, p.port = some n → 1 ≤ n ∧ n ≤ 65535

/-- Well-formedness of the discrete environment variables: explicitly
set PGUSER/PGDATABASE are non-empty, a parsing PGPORT is nonzero. -/
def goodEnvVars (env : Env) : Prop :=
  (∀ s, env "PGUSER" = some s → s ≠ "") ∧
  (∀ s, env "PGDATABASE" = some s → s ≠ "") ∧
  (∀ s n, env "PGPORT" = some s → parseU16 s = some n → 1 ≤ n)

/-- Well-formedness of a discrete connections-file entry. -/
def goodEntry (conn : NamedConnection) : Prop :=
  (∀ s, conn.user = some s → s ≠ "") ∧
  (∀ s, conn.database = some s → s ≠ "") ∧
  (∀ n, conn.port = some n → 1 ≤ n ∧ n ≤ 65535)

/-- `parseU16` never returns a value above 65535. -/
theorem parseU16_le (s : String) (n : Nat) (h : parseU16 s = some n) :
    n ≤ 65535 := by
  unfold parseU16 at h
  split at h
  · split at h
    · injection h with h1
      omega
    · exact Option.noConfusion h
  · exact Option.noConfusion h

/-- A URL-derived descriptor satisfies the invariant when the URL is
well-formed. -/
theorem from_url_invariant (p : ParsedUrl) (h : goodParsed p) :
    descriptorInvariant (from_url p) := by
  obtain ⟨h1, h2, h3⟩ := h
  refine ⟨?_, ?_, h1, h2⟩
  · cases hp : p.port with
    | none => simp [from_url, hp]
    | some n => simpa [from_url, hp] using (h3 n hp).1
  · cases hp : p.port with
    | none => simp [from_url, hp]
    | some n => simpa [from_url, hp] using (h3 n hp).2

/-- An environment-derived descriptor satisfies the invariant when the
environment is well-formed. -/
theorem from_env_invariant (env : Env) (h : goodEnvVars env) :
    descriptorInvariant (from_env env) := by
  obtain ⟨h1, h2, h3⟩ := h
  refine ⟨?_, ?_, ?_, ?_⟩
  · cases hp : env "PGPORT" with
    | none => simp [from_env, hp]
    | some s =>
      cases hu : parseU16 s with
      | none => simp [from_env, hp, hu]
      | some n => simpa [from_env, hp, hu] using h3 s n hp hu
  · cases hp : env "PGPORT" with
    | none => simp [from_env, hp]
    | some s =>
      cases hu : parseU16 s with
      | none => simp [from_env, hp, hu]
      | some n => simpa [from_env, hp, hu] using parseU16_le s n hu
  · cases hg : env "PGUSER" with
    | none => simp [from_env, hg]
    | some s => simpa [from_env, hg] using h1 s hg
  · cases hg : env "PGDATABASE" with
    | none => simp [from_env, hg]
    | some s => simpa [from_env, hg] using h2 s hg

/-- A discrete file-entry descriptor satisfies the invariant when the
entry is well-formed. -/
theorem namedConnectionConfig_invariant (conn : NamedConnection)
    (h : goodEntry conn) :
    descriptorInvariant (namedConnectionConfig conn) := by
  obtain ⟨h1, h2, h3⟩ := h
  refine ⟨?_, ?_, ?_, ?_⟩
  · cases hp : conn.port with
    | none => simp [namedConnectionConfig, hp]
    | some n => simpa [namedConnectionConfig, hp] using (h3 n hp).1
  · cases hp : conn.port with
    | none => simp [namedConnectionConfig, hp]
    | some n => simpa [namedConnectionConfig, hp] using (h3 n hp).2
  · cases hg : conn.user with
    | none => simp [namedConnectionConfig, hg]
    | some s => simpa [namedConnectionConfig, hg] using h1 s hg
  · cases hg : conn.database with
    | none => simp [namedConnectionConfig, hg]
    | some s => simpa [namedConnectionConfig, hg] using h2 s hg

/-- A successful association-list lookup returns a member. -/
theorem lookup_mem (k : String) (v : NamedConnection) :
    ∀ (l : List (String × NamedConnection)),
      l.lookup k = some v → (k, v) ∈ l := by
  intro l
  induction l with
  | nil => intro h; exact Option.noConfusion h
  | cons p rest ih =>
    obtain ⟨a, b⟩ := p
    intro h
    unfold List.lookup at h
    cases hk : (k == a) with
    | true =>
      rw [hk] at h
      injection h with h1
      subst h1
      have ha : k = a := by simpa using hk
      subst ha
      exact List.mem_cons_self _ _
    | false =>
      rw [hk] at h
      exact List.mem_cons_of_mem _ (ih h)

/-- Concrete environment for the C7 counterexample: `PGHOST` set,
`PGUSER` explicitly set to the empty string. -/
def envEmptyUser : Env := fun k =>
  if k = "PGHOST" then some "localhost"
  else if k = "PGUSER" then some "" else none

/-- C7 counterexample: resolution performs no validation — with
`PGHOST` set and `PGUSER` set to the empty string, resolution succeeds
with a descriptor whose `user` is empty, violating the claimed
invariant. -/
theorem descriptor_invariant_counterexample :
    resolve_connection envEmptyUser (fun _ => none) none (fun _ => none)
        none
      = .ok ⟨"localhost", 5432, "", none, "postgres", false⟩ ∧
    ¬descriptorInvariant ⟨"localhost", 5432, "", none, "postgres", false⟩ :=
  ⟨rfl, by decide⟩

/-- C7 (amended): every descriptor produced by resolution satisfies
port in [1,65535] and non-empty user and database, provided the
configuration sources are well-formed: every URL the parser accepts
has a non-empty username, non-empty database path and an in-range
port; explicitly-set PGUSER/PGDATABASE are non-empty and a parseable
PGPORT is nonzero; and every connections-file entry's explicit
user/database/port fields are likewise non-empty and in range.
Resolution itself performs no validation, so ill-formed sources (e.g.
an empty PGUSER) yield descriptors that violate the invariant. -/
theorem resolved_descriptor_invariant (env : Env)
    (parseUrl : String → Option ParsedUrl) (configFile : Option String)
    (parseConfig : String → Option ConnectionsConfig)
    (name : Option String) (cfg : ConnectionConfig)
    (hpu : ∀ u p, parseUrl u = some p → goodParsed p)
    (henv : goodEnvVars env)
    (hpc : ∀ s c, parseConfig s = some c →
      ∀ nm conn, (nm, conn) ∈ c.connections → goodEntry conn)
    (hok : resolve_connection env parseUrl configFile parseConfig name
      = .ok cfg) :
    descriptorInvariant cfg := by
  unfold resolve_connection at hok
  split at hok
  · rename_i u hdb
    split at hok
    · rename_i p hp
      injection hok with h1
      subst h1
      exact from_url_invariant p (hpu u p hp)
    · exact Except.noConfusion hok
  · split at hok
    · injection hok with h1
      subst h1
      exact from_env_invariant env henv
    · split at hok
      · rename_i contents
        split at hok
        · exact Except.noConfusion hok
        · rename_i config hc
          split at hok
          · rename_i n hn
            split at hok
            · rename_i conn hl
              split at hok
              · rename_i u hu
                split at hok
                · rename_i p hp
                  injection hok with h1
                  subst h1
                  exact from_url_invariant p (hpu u p hp)
                · exact Except.noConfusion hok
              · rename_i hu
                injection hok with h1
                subst h1
                exact namedConnectionConfig_invariant conn
                  (hpc contents config hc n conn
                    (lookup_mem n conn config.connections hl))
            · exact Except.noConfusion hok
          · exact Except.noConfusion hok
      · exact Except.noConfusion hok

/-- Concrete environment for the C7 witness: only `PGHOST` is set. -/
def envHostOnly : Env := fun k =>
  if k = "PGHOST" then some "db.example" else none

/-- C7 witness: the amended theorem applied to the environment that
sets only `PGHOST`, yielding an all-defaults descriptor that satisfies
the invariant. -/
theorem resolved_descriptor_invariant_witness :
    descriptorInvariant
      ⟨"db.example", 5432, "postgres", none, "postgres", false⟩ :=
  resolved_descriptor_invariant envHostOnly (fun _ => none) none
    (fun _ => none) none
    ⟨"db.example", 5432, "postgres", none, "postgres", false⟩
    (fun _ _ h => Option.noConfusion h)
    ⟨fun s h => by simp [envHostOnly] at h,
     fun s h => by simp [envHostOnly] at h,
     fun s n h _ => by simp [envHostOnly] at h⟩
    (fun _ _ h => Option.noConfusion h)
    rfl

/-- A concrete executor for the C2 witness: every statement bumps a
counter and reports one affected row, except the statement `BAD`,
which fails. -/
def txExecFixture : Nat → String → Option (Nat × Nat) :=
  fun db s => if s = "BAD" then none else some (db + 1, 1)

/-- C2 witness: running `["a", "BAD", "c"]` from state 7 fails at
index 1; the theorem yields that index 1 is in range, exactly
statements 0 and 1 were attempted, and the state rolled back to 7. -/
theorem transaction_all_or_nothing_witness :
    1 < (["a", "BAD", "c"] : List String).length ∧
    (transaction true txExecFixture (fun _ => true) 7
        ["a", "BAD", "c"]).trace.length = 1 + 1 ∧
    (transaction true txExecFixture (fun _ => true) 7
        ["a", "BAD", "c"]).finalDb = 7 :=
  (transaction_all_or_nothing true txExecFixture (fun _ => true) 7
    ["a", "BAD", "c"]).2.1 1 rfl

end FgpPostgres
